import Mathlib

/-!
# Verification of the real-time chat delivery subsystem

Shallow embedding of the WebSocket chat subsystem: the server message
router (`registerRoutes` websocket handler) and the client
`WebSocketService` (offline queue, delivery tracker, reconnect backoff),
together with proofs of the specification's claims about them.

JavaScript truthiness of the optional numeric and string fields is made
explicit (`0`, `""`, and absent fields are falsy); machine timestamps are
modelled as `Int` (epoch milliseconds), user/connection identifiers as
`Nat`, and the outcome of the fallible persistence collaborator
(`storage.createChatMessage`) as an `Except` oracle.
-/

/-- JS truthiness of an optional number field (`0` and `undefined` are falsy). -/
def truthyN : Option Nat → Bool
  | some n => n != 0
  | none => false

/-- JS truthiness of an optional string field (`""` and `undefined` are falsy). -/
def truthyS : Option String → Bool
  | some s => s != ""
  | none => false

/-- Inbound websocket envelope as parsed by the server router
(`JSON.parse(message.toString())`); fields the chat paths read. -/
structure WsData where
  type : String
  messageId : Option String := none
  message : Option String := none
  userId : Option Nat := none
  senderId : Option Nat := none
  receiverId : Option Nat := none
  chatGroupId : Option Nat := none
  timestamp : Option Int := none
deriving DecidableEq, Repr

/-- The record returned by the persistence collaborator
`storage.createChatMessage`. -/
structure StoredChatMessage where
  senderId : Nat
  receiverId : Option Nat
  chatGroupId : Option Nat
  content : String
  messageId : Option String
deriving DecidableEq, Repr

/-- The argument object the router passes to `storage.createChatMessage`
(content already encrypted). -/
structure ChatInsert where
  senderId : Nat
  receiverId : Option Nat
  chatGroupId : Option Nat
  content : String
  messageId : Option String
deriving DecidableEq, Repr

/-- Outbound frames the chat_message handler can emit. -/
inductive Frame where
  | chatMsg (messageId : String) (msg : StoredChatMessage)
  | delivered (messageId : String) (timestamp : Int)
  | err (msg : String)
deriving DecidableEq, Repr

/-- Is this frame a `chat_message` frame? -/
def Frame.isChat : Frame → Bool
  | .chatMsg _ _ => true
  | _ => false

/-- Is this frame a `message_delivered` frame? -/
def Frame.isDelivered : Frame → Bool
  | .delivered _ _ => true
  | _ => false

/-- The execution context of one `chat_message` handler run: the
connection registry `activeConnections` (user id to connection handle),
per-handle `readyState === OPEN`, the group membership collaborator
`storage.getEventParticipantsByEvent` (member user ids), the cipher,
the outcome of the `storage.createChatMessage` call, and `Date.now()`. -/
structure RouterCtx where
  conns : Nat → Option Nat
  isOpenConn : Nat → Bool
  groupMembers : Nat → List Nat
  encrypt : String → String
  createResult : Except Unit StoredChatMessage
  now : Int

/-- Result of one handler run: the argument of the persistence call when
it was made, and the frames sent, each paired with the destination
connection handle. -/
structure HandleResult where
  storageCall : Option ChatInsert
  sends : List (Nat × Frame)
deriving DecidableEq, Repr

/-- The router's validation guard for `chat_message`:
`data.message && data.senderId && (data.receiverId || data.chatGroupId)`. -/
def chatGuard (d : WsData) : Bool :=
  truthyS d.message && truthyN d.senderId && (truthyN d.receiverId || truthyN d.chatGroupId)

/-- `data.messageId || server-${Date.now()}` — the messageId placed on the
fanned-out `chat_message` frame. -/
def respMessageId (d : WsData) (now : Int) : String :=
  if truthyS d.messageId then d.messageId.getD "" else "server-" ++ toString now

/-- Shallow embedding of the server router's `case 'chat_message'`
(including the surrounding try/catch, which answers any thrown error with
a single `error` frame to the sender's own connection `ws`). -/
def handleChatMessage (ws : Nat) (d : WsData) (ctx : RouterCtx) : HandleResult :=
  if chatGuard d then
    let insert : ChatInsert :=
      { senderId := d.senderId.getD 0, receiverId := d.receiverId,
        chatGroupId := d.chatGroupId,
        content := ctx.encrypt (d.message.getD ""), messageId := d.messageId }
    match ctx.createResult with
    | .error _ =>
        { storageCall := some insert,
          sends := [(ws, Frame.err "Failed to process message")] }
    | .ok cm =>
        let outMsg := { cm with content := d.message.getD "" }
        let resp := Frame.chatMsg (respMessageId d ctx.now) outMsg
        let fanout :=
          if truthyN d.chatGroupId then
            (ctx.groupMembers (d.chatGroupId.getD 0)).filterMap (fun m =>
              match ctx.conns m with
              | some h => if ctx.isOpenConn h then some (h, resp) else none
              | none => none)
          else if truthyN d.receiverId then
            match ctx.conns (d.receiverId.getD 0) with
            | some h => if ctx.isOpenConn h then [(h, resp)] else []
            | none => []
          else []
        let ack :=
          if truthyS d.messageId then
            [(ws, Frame.delivered (d.messageId.getD "") ctx.now)]
          else []
        { storageCall := some insert, sends := fanout ++ ack }
  else { storageCall := none, sends := [] }

/-- Counting over a `filterMap`: an element contributes iff its image
exists and satisfies the predicate. -/
theorem countP_filterMap_eq (f : α → Option β) (p : β → Bool) (l : List α) :
    (l.filterMap f).countP p
      = l.countP (fun a => match f a with | some b => p b | none => false) := by
  induction l with
  | nil => rfl
  | cons a l ih =>
    cases h : f a with
    | none => simp [List.filterMap_cons, h, List.countP_cons, ih]
    | some b => simp [List.filterMap_cons, h, List.countP_cons, ih]

/-- C1: if the persistence collaborator throws while handling a valid
`chat_message`, the router sends exactly one `error` frame to the sender's
own connection and no `message_delivered` frame is emitted to anyone. -/
theorem storage_failure_never_reports_delivery (ws : Nat) (d : WsData) (ctx : RouterCtx)
    (hg : chatGuard d = true) (he : ctx.createResult = .error ()) :
    (handleChatMessage ws d ctx).sends = [(ws, Frame.err "Failed to process message")] ∧
    ∀ s ∈ (handleChatMessage ws d ctx).sends, s.2.isDelivered = false := by
  constructor
  · simp [handleChatMessage, hg, he]
  · intro s hs
    simp [handleChatMessage, hg, he] at hs
    simp [hs, Frame.isDelivered]

/-- Witness for C1 at a concrete run. -/
theorem storage_failure_never_reports_delivery_witness :
    (handleChatMessage 10
        { type := "chat_message", messageId := some "5-6-1", message := some "hi",
          senderId := some 1, receiverId := some 2 }
        { conns := fun _ => none, isOpenConn := fun _ => true,
          groupMembers := fun _ => [], encrypt := id,
          createResult := .error (), now := 5 }).sends
      = [(10, Frame.err "Failed to process message")] :=
  (storage_failure_never_reports_delivery 10
    { type := "chat_message", messageId := some "5-6-1", message := some "hi",
      senderId := some 1, receiverId := some 2 }
    { conns := fun _ => none, isOpenConn := fun _ => true,
      groupMembers := fun _ => [], encrypt := id,
      createResult := .error (), now := 5 }
    (by decide) rfl).1

/-- C3: a valid direct (receiver-addressed) `chat_message` carrying a
messageId is answered with a `message_delivered` frame to the sender's own
connection even when the recipient has no live open connection; the
recipient then receives nothing and no `error` frame is emitted. -/
theorem direct_message_offline_recipient_still_acked
    (ws : Nat) (d : WsData) (ctx : RouterCtx) (r : Nat) (mid : String)
    (cm : StoredChatMessage)
    (hg : chatGuard d = true)
    (hnog : truthyN d.chatGroupId = false)
    (hr : d.receiverId = some r)
    (hmid : d.messageId = some mid) (hmid' : mid ≠ "")
    (hok : ctx.createResult = .ok cm)
    (hoff : ∀ h, ctx.conns r = some h → ctx.isOpenConn h = false) :
    (handleChatMessage ws d ctx).sends = [(ws, Frame.delivered mid ctx.now)] := by
  have hrt : truthyN d.receiverId = true := by
    have h2 := hg
    simp only [chatGuard, hnog, Bool.or_false, Bool.and_eq_true] at h2
    exact h2.2
  simp only [handleChatMessage, hg, if_pos, hok]
  simp only [hnog, Bool.false_eq_true, if_false, hrt, if_pos, hr, Option.getD_some]
  cases hc : ctx.conns r with
  | none => simp [hmid, truthyS, hmid', Option.getD_some]
  | some h =>
    have := hoff h hc
    simp [this, hmid, truthyS, hmid', Option.getD_some]

/-- Witness for C3 at a concrete run: recipient 2 absent from the registry. -/
theorem direct_message_offline_recipient_still_acked_witness :
    (handleChatMessage 10
        { type := "chat_message", messageId := some "5-6-1", message := some "hi",
          senderId := some 1, receiverId := some 2 }
        { conns := fun _ => none, isOpenConn := fun _ => true,
          groupMembers := fun _ => [], encrypt := id,
          createResult := .ok { senderId := 1, receiverId := some 2, chatGroupId := none,
                                content := "enc", messageId := some "5-6-1" },
          now := 5 }).sends
      = [(10, Frame.delivered "5-6-1" 5)] :=
  direct_message_offline_recipient_still_acked 10
    { type := "chat_message", messageId := some "5-6-1", message := some "hi",
      senderId := some 1, receiverId := some 2 }
    { conns := fun _ => none, isOpenConn := fun _ => true,
      groupMembers := fun _ => [], encrypt := id,
      createResult := .ok { senderId := 1, receiverId := some 2, chatGroupId := none,
                            content := "enc", messageId := some "5-6-1" },
      now := 5 }
    2 "5-6-1"
    { senderId := 1, receiverId := some 2, chatGroupId := none,
      content := "enc", messageId := some "5-6-1" }
    (by decide) (by decide) rfl rfl (by decide) rfl (fun h hc => by simp at hc)

/-- Concrete envelope carrying BOTH addressing fields (receiverId and
chatGroupId), used to exhibit the router's actual validation behaviour. -/
def bothAddrData : WsData :=
  { type := "chat_message", messageId := some "5-6-1", message := some "hi",
    senderId := some 1, receiverId := some 2, chatGroupId := some 3 }

/-- Concrete router context with one live group member (user 7, handle 70). -/
def bothAddrCtx : RouterCtx :=
  { conns := fun u => if u = 7 then some 70 else none,
    isOpenConn := fun _ => true,
    groupMembers := fun _ => [7],
    encrypt := id,
    createResult := .ok { senderId := 1, receiverId := some 2, chatGroupId := some 3,
                          content := "enc", messageId := some "5-6-1" },
    now := 5 }

/-- C4 counterexample: an envelope with BOTH `receiverId` and `chatGroupId`
set (not exactly one) is nevertheless fully processed by the router — the
persistence call is made and frames are sent (group branch wins) — refuting
"processes only if ... exactly one of recipientId/chatGroupId" and
"an envelope violating this invariant is rejected". -/
theorem chat_message_both_addressing_processed :
    truthyN bothAddrData.receiverId = true ∧
    truthyN bothAddrData.chatGroupId = true ∧
    (handleChatMessage 10 bothAddrData bothAddrCtx).storageCall.isSome = true ∧
    (handleChatMessage 10 bothAddrData bothAddrCtx).sends
      = [(70, Frame.chatMsg "5-6-1"
            { senderId := 1, receiverId := some 2, chatGroupId := some 3,
              content := "hi", messageId := some "5-6-1" }),
         (10, Frame.delivered "5-6-1" 5)] := by
  refine ⟨rfl, rfl, rfl, ?_⟩
  rfl

/-- C4 (amended): the router processes an inbound `chat_message` only if it
carries truthy content, a truthy senderId and AT LEAST ONE of
receiverId/chatGroupId (group taking precedence when both are set); an
envelope failing this guard is rejected without partial processing —
nothing stored, nothing fanned out, no `message_delivered` emitted. -/
theorem chat_message_validation_amended (ws : Nat) (d : WsData) (ctx : RouterCtx) :
    (chatGuard d = true ↔
      (truthyS d.message = true ∧ truthyN d.senderId = true ∧
        (truthyN d.receiverId = true ∨ truthyN d.chatGroupId = true))) ∧
    (chatGuard d = false →
      handleChatMessage ws d ctx = { storageCall := none, sends := [] }) ∧
    ((handleChatMessage ws d ctx).storageCall.isSome = true → chatGuard d = true) := by
  refine ⟨?_, ?_, ?_⟩
  · simp [chatGuard, Bool.and_eq_true, Bool.or_eq_true, and_assoc]
  · intro h
    simp [handleChatMessage, h]
  · intro h
    by_contra hne
    have hf : chatGuard d = false := by
      cases hgc : chatGuard d
      · rfl
      · exact absurd hgc hne
    simp [handleChatMessage, hf] at h

/-- Witness for the amended C4: an envelope with content and sender but no
addressing field at all is rejected with nothing stored and nothing sent. -/
theorem chat_message_validation_amended_witness :
    handleChatMessage 10
        { type := "chat_message", message := some "hi", senderId := some 1 }
        bothAddrCtx
      = { storageCall := none, sends := [] } :=
  (chat_message_validation_amended 10
    { type := "chat_message", message := some "hi", senderId := some 1 }
    bothAddrCtx).2.1 (by decide)

/-- `countP` agrees with `count` when the predicate coincides with equality
to a fixed element on the list. -/
theorem countP_eq_count_of_mem_iff {l : List Nat} {p : Nat → Bool} {m : Nat}
    (h : ∀ a ∈ l, p a = (a == m)) : l.countP p = l.count m := by
  induction l with
  | nil => rfl
  | cons a l ih =>
    rw [List.countP_cons, List.count_cons,
      ih (fun x hx => h x (List.mem_cons_of_mem _ hx)),
      h a (List.mem_cons_self a l)]

/-- C2: for a valid group-addressed `chat_message`, every group member `m`
appearing once in the resolved member list and holding a live open
connection `c` receives exactly one `chat_message` frame on `c`, and the
`message_delivered` reply to the sender is emitted regardless of the other
members' connection states (dead or absent members are skipped, never
blocking the rest of the fan-out or the ack). -/
theorem group_fanout_exactly_once
    (ws : Nat) (d : WsData) (ctx : RouterCtx) (g m c : Nat) (cm : StoredChatMessage)
    (hg : chatGuard d = true)
    (hgrp : d.chatGroupId = some g) (hg0 : g ≠ 0)
    (hok : ctx.createResult = .ok cm)
    (hcount : (ctx.groupMembers g).count m = 1)
    (hc : ctx.conns m = some c)
    (hopen : ctx.isOpenConn c = true)
    (hdistinct : ∀ m' ∈ ctx.groupMembers g, ctx.conns m' = some c → m' = m) :
    ((handleChatMessage ws d ctx).sends.countP (fun s => s.1 == c && s.2.isChat)) = 1 ∧
    (∀ mid, d.messageId = some mid → mid ≠ "" →
      (ws, Frame.delivered mid ctx.now) ∈ (handleChatMessage ws d ctx).sends) := by
  have htg : truthyN (some g) = true := by
    simp [truthyN, hg0]
  constructor
  · simp only [handleChatMessage, hg, if_pos, hok, hgrp, htg, if_true, Option.getD_some,
      List.countP_append]
    have hack : ∀ ack : List (Nat × Frame),
        (∀ s ∈ ack, s.2.isDelivered = true) →
        ack.countP (fun s => s.1 == c && s.2.isChat) = 0 := by
      intro ack hall
      rw [List.countP_eq_zero]
      intro s hs
      have := hall s hs
      cases s2 : s.2 with
      | delivered _ _ => simp [Frame.isChat, s2]
      | chatMsg _ _ => rw [s2] at this; simp [Frame.isDelivered] at this
      | err _ => rw [s2] at this; simp [Frame.isDelivered] at this
    rw [countP_filterMap_eq, countP_eq_count_of_mem_iff, hcount]
    · have h0 : (if truthyS d.messageId then
          [(ws, Frame.delivered (d.messageId.getD "") ctx.now)] else []).countP
            (fun s => s.1 == c && s.2.isChat) = 0 := by
        apply hack
        intro s hs
        by_cases ht : truthyS d.messageId
        · simp [ht] at hs
          simp [hs, Frame.isDelivered]
        · simp [ht] at hs
      omega
    · intro a ha
      cases hca : ctx.conns a with
      | none =>
        have hne : a ≠ m := by
          intro he; rw [he, hc] at hca; exact Option.noConfusion hca
        simp [hne]
      | some h =>
        by_cases he : a = m
        · subst he
          rw [hc] at hca
          injection hca with hhc
          subst hhc
          simp [hopen, Frame.isChat]
        · have hhc : h ≠ c := by
            intro hcc; subst hcc
            exact he (hdistinct a ha hca)
          by_cases hoh : ctx.isOpenConn h = true
          · simp [hoh, he, hhc, Frame.isChat]
          · simp [hoh, he]
  · intro mid hmid hmid'
    simp only [handleChatMessage, hg, if_pos, hok]
    apply List.mem_append_right
    simp [hmid, truthyS, hmid']

/-- Concrete group message for the C2 witness: group 3 has members 1, 2, 4;
member 1 (the sender, handle 11) is live, member 2's connection (handle 12)
is not open, member 4 has no registry entry. -/
def groupData : WsData :=
  { type := "chat_message", messageId := some "5-6-1", message := some "hi",
    senderId := some 1, chatGroupId := some 3 }

/-- Registry/context for the C2 witness. -/
def groupCtx : RouterCtx :=
  { conns := fun u => if u = 1 then some 11 else if u = 2 then some 12 else none,
    isOpenConn := fun h => h = 11,
    groupMembers := fun _ => [1, 2, 4],
    encrypt := id,
    createResult := .ok { senderId := 1, receiverId := none, chatGroupId := some 3,
                          content := "enc", messageId := some "5-6-1" },
    now := 5 }

/-- Witness for C2: live member 1 (handle 11) gets exactly one chat frame
and the sender is acked, despite members 2 and 4 being dead/absent. -/
theorem group_fanout_exactly_once_witness :
    ((handleChatMessage 11 groupData groupCtx).sends.countP
        (fun s => s.1 == 11 && s.2.isChat)) = 1 ∧
    (11, Frame.delivered "5-6-1" 5) ∈ (handleChatMessage 11 groupData groupCtx).sends := by
  have h := group_fanout_exactly_once 11 groupData groupCtx 3 1 11
    { senderId := 1, receiverId := none, chatGroupId := some 3,
      content := "enc", messageId := some "5-6-1" }
    (by decide) rfl (by decide) rfl (by decide) (by decide) (by decide)
    (by intro m' hm' hcm'; fin_cases hm' <;> simp_all [groupCtx])
  exact ⟨h.1, h.2 "5-6-1" rfl (by decide)⟩

/-! ## Client-side model: `WebSocketService` -/

/-- An outbound client payload (the object literals the service sends). -/
structure Payload where
  type : String
  messageId : Option String := none
  senderId : Option Nat := none
  receiverId : Option Nat := none
  chatGroupId : Option Nat := none
  userId : Option Nat := none
  message : Option String := none
  timestamp : Int := 0
deriving DecidableEq, Repr

/-- `QueuedMessage` — `{ payload, attempts, timestamp }` (used both for the
offline queue and for the `pendingMessages` delivery tracker). -/
structure QueuedMessage where
  payload : Payload
  attempts : Nat
  timestamp : Int
deriving DecidableEq, Repr

/-- Observable effects of a client-state transition: transport sends,
scheduled timers, durable-queue writes and dispatched DOM events. -/
inductive ClientEff where
  | wsSend (p : Payload)
  | scheduleCheck (mid : String) (delayMs : Nat)
  | scheduleReconnect (delayMs : ℚ)
  | saveQueue (stored : List QueuedMessage)
  | dispatch (name : String) (detail : Option String)
deriving DecidableEq, Repr

/-- The mutable fields of `WebSocketService` the chat claims depend on. -/
structure ClientState where
  socketOpen : Bool
  reconnectAttempts : Nat
  offlineQueue : List QueuedMessage
  pendingMessages : List (String × QueuedMessage)
  userId : Option Nat
  isConnecting : Bool
  connectionStatus : String
deriving DecidableEq, Repr

/-- JS `Map.get` over the insertion-ordered association list. -/
def mapGet (ms : List (String × QueuedMessage)) (k : String) : Option QueuedMessage :=
  (ms.find? (fun e => e.1 == k)).map (·.2)

/-- JS `Map.set`: replace the existing binding in place, else append. -/
def mapSet (ms : List (String × QueuedMessage)) (k : String) (v : QueuedMessage) :
    List (String × QueuedMessage) :=
  if (ms.find? (fun e => e.1 == k)).isSome then
    ms.map (fun e => if e.1 == k then (k, v) else e)
  else ms ++ [(k, v)]

/-- JS `Map.delete`. -/
def mapDelete (ms : List (String × QueuedMessage)) (k : String) :
    List (String × QueuedMessage) :=
  ms.filter (fun e => e.1 != k)

/-- The list `saveOfflineQueue` writes to `localStorage`: age filter
(`timestamp > now - 86400000`), then `chat_message`-only filter, then
`slice(0, 100)`. -/
def savedQueueData (now : Int) (q : List QueuedMessage) : List QueuedMessage :=
  ((q.filter (fun msg => now - 86400000 < msg.timestamp)).filter
      (fun msg => msg.payload.type == "chat_message")).take 100

/-- `loadOfflineQueue`: parse the stored list and keep entries younger than
24 hours. -/
def loadOfflineQueue (now : Int) (stored : List QueuedMessage) : List QueuedMessage :=
  stored.filter (fun msg => now - 86400000 < msg.timestamp)

/-- `queueMessage`: heartbeats are never queued; everything else is pushed
to the back of the offline queue, the filtered queue is persisted and a
queue-length event is dispatched. -/
def queueMessage (st : ClientState) (now : Int) (p : Payload) :
    ClientState × List ClientEff :=
  if p.type == "heartbeat" || p.type == "heartbeat_ack" then (st, [])
  else
    let q := st.offlineQueue ++ [{ payload := p, attempts := 0, timestamp := now }]
    ({ st with offlineQueue := q },
     [ClientEff.saveQueue (savedQueueData now q),
      ClientEff.dispatch "websocket-message-queued" none])

/-- The Pending Delivery entry registered for a chat message handed to an
open connection: `{ payload, attempts: 1, timestamp: Date.now() }`. -/
def mkPendingEntry (p : Payload) (now : Int) : QueuedMessage :=
  { payload := p, attempts := 1, timestamp := now }

/-- Is this payload a chat message with a truthy messageId (the condition
under which delivery tracking is registered)? -/
def isTrackedChat (p : Payload) : Bool :=
  p.type == "chat_message" && truthyS p.messageId

/-- `sendOrQueueMessage`: on an open socket, register Pending Delivery for
chat messages (checking 5 s later) and send — queueing instead if the send
throws (`sendOk = false`); on a closed socket, queue. Returns the `success`
boolean of the source. -/
def sendOrQueueMessage (st : ClientState) (now : Int) (sendOk : Bool) (p : Payload) :
    ClientState × Bool × List ClientEff :=
  if st.socketOpen then
    let st1 := if isTrackedChat p then
        { st with pendingMessages :=
            mapSet st.pendingMessages (p.messageId.getD "") (mkPendingEntry p now) }
      else st
    let effs1 := if isTrackedChat p then
        [ClientEff.scheduleCheck (p.messageId.getD "") 5000]
      else []
    if sendOk then (st1, true, effs1 ++ [ClientEff.wsSend p])
    else
      let r := queueMessage st1 now p
      (r.1, false, effs1 ++ r.2)
  else
    let r := queueMessage st now p
    (r.1, false, r.2)

/-- `checkMessageDelivery`: no-op when the entry is gone; at
`attempts >= 3` remove it and dispatch the permanent-failure event carrying
the messageId; otherwise increment attempts and resend on an open socket
(rechecking in 5 s), or move the payload to the offline queue when the
socket is closed (dropping the entry). -/
def checkMessageDelivery (st : ClientState) (now : Int) (sendOk : Bool) (mid : String) :
    ClientState × List ClientEff :=
  match mapGet st.pendingMessages mid with
  | none => (st, [])
  | some pm =>
    if pm.attempts ≥ 3 then
      ({ st with pendingMessages := mapDelete st.pendingMessages mid },
       [ClientEff.dispatch "websocket-message-failed" (some mid)])
    else
      let pm' := { pm with attempts := pm.attempts + 1 }
      let st1 := { st with pendingMessages := mapSet st.pendingMessages mid pm' }
      if st.socketOpen then
        if sendOk then
          (st1, [ClientEff.wsSend pm'.payload, ClientEff.scheduleCheck mid 5000])
        else
          ({ st1 with pendingMessages := mapDelete st1.pendingMessages mid },
           [ClientEff.dispatch "websocket-message-failed" (some mid)])
      else
        let r := queueMessage st1 now pm'.payload
        ({ r.1 with pendingMessages := mapDelete r.1.pendingMessages mid }, r.2)

/-- `processOfflineQueue` refreshes the timestamp of a chat message before
resending it. -/
def refreshPayload (now : Int) (p : Payload) : Payload :=
  if p.type == "chat_message" then { p with timestamp := now } else p

/-- The `while` loop of `processOfflineQueue`: shift the head, refresh a
chat message's timestamp, send (the `k`-th send's outcome given by
`sendOk k`), re-register delivery tracking for chat messages; on a throw,
unshift the (already refreshed) item back to the front and stop. -/
def processQueueGo (now : Int) (sendOk : Nat → Bool) :
    Nat → List QueuedMessage → List (String × QueuedMessage) →
    List QueuedMessage × List (String × QueuedMessage) × List ClientEff
  | _, [], pending => ([], pending, [])
  | k, item :: rest, pending =>
    let p' := refreshPayload now item.payload
    if sendOk k then
      let pending' := if isTrackedChat p' then
          mapSet pending (p'.messageId.getD "") (mkPendingEntry p' now)
        else pending
      let effs := ClientEff.wsSend p' ::
        (if isTrackedChat p' then
          [ClientEff.scheduleCheck (p'.messageId.getD "") 5000]
        else [])
      let r := processQueueGo now sendOk (k + 1) rest pending'
      (r.1, r.2.1, effs ++ r.2.2)
    else ({ item with payload := p' } :: rest, pending, [])

/-- `processOfflineQueue`: nothing happens on a closed socket; otherwise run
the flush loop, persist the remaining queue and dispatch the processed
event. -/
def processOfflineQueue (st : ClientState) (now : Int) (sendOk : Nat → Bool) :
    ClientState × List ClientEff :=
  if st.socketOpen then
    let r := processQueueGo now sendOk 0 st.offlineQueue st.pendingMessages
    ({ st with offlineQueue := r.1, pendingMessages := r.2.1 },
     r.2.2 ++ [ClientEff.saveQueue (savedQueueData now r.1),
               ClientEff.dispatch "websocket-queue-processed" none])
  else (st, [])

/-- The reconnect delay of `attemptReconnect`:
`min(reconnectInterval * 1.5^(attempts-1), 60000)` with
`reconnectInterval = 5000`, for the (already incremented) attempt count. -/
def reconnectDelay (attempt : Nat) : ℚ :=
  min (5000 * (3 / 2 : ℚ) ^ (attempt - 1)) 60000

/-- `attemptReconnect`: at `maxReconnectAttempts = 5` give up with the
reconnect-failed event; otherwise increment the counter, announce the
attempt and schedule a `connect` after the backoff delay. -/
def attemptReconnect (st : ClientState) : ClientState × List ClientEff :=
  if st.reconnectAttempts ≥ 5 then
    (st, [ClientEff.dispatch "websocket-reconnect-failed" none])
  else
    let a := st.reconnectAttempts + 1
    ({ st with reconnectAttempts := a },
     [ClientEff.dispatch "websocket-reconnecting" none,
      ClientEff.scheduleReconnect (reconnectDelay a)])

/-- `onClose`: drop the socket, mark disconnected, and — for any non-normal
close code (`code !== 1000`) — run `attemptReconnect`. -/
def onCloseClient (st : ClientState) (code : Nat) : ClientState × List ClientEff :=
  let st1 := { st with
    socketOpen := false, isConnecting := false,
    connectionStatus := "disconnected" }
  let effs1 := [ClientEff.dispatch "websocket-status-change" (some "disconnected"),
                ClientEff.dispatch "websocket-close" none]
  if code ≠ 1000 then
    let r := attemptReconnect st1
    (r.1, effs1 ++ r.2)
  else (st1, effs1)

/-- `onOpen`: reset the reconnect counter to 0, mark connected, and send the
`auth` envelope when a userId is known. -/
def onOpenClient (st : ClientState) : ClientState × List ClientEff :=
  let st1 := { st with
    reconnectAttempts := 0, isConnecting := false,
    socketOpen := true, connectionStatus := "connected" }
  let auth := match st.userId with
    | some uid => [ClientEff.wsSend { type := "auth", userId := some uid }]
    | none => []
  (st1, [ClientEff.dispatch "websocket-status-change" (some "connected"),
         ClientEff.dispatch "websocket-open" none] ++ auth)

/-! ## Message-id round trip (client generation, server extraction)

JS strings are modelled at the character level (`List Char`) so that the
`split('-')` / `parseInt` pipeline of the server's acknowledgement routing
can be reasoned about. -/

/-- JS number-to-string of a non-negative integer (decimal digits,
`"0"` for zero). -/
def natChars (n : Nat) : List Char :=
  if n = 0 then ['0'] else (Nat.digits 10 n).reverse.map Nat.digitChar

/-- JS `parseInt` on a decimal digit string (the components produced by
`generateMessageId` are always plain digit runs). -/
def charsToNat (s : List Char) : Nat :=
  Nat.ofDigits 10 ((s.map (fun c => c.toNat - 48)).reverse)

/-- JS `String.split('-')`: split into the (possibly empty) components
between the dashes. -/
def splitOnDash : List Char → List (List Char)
  | [] => [[]]
  | c :: rest =>
    if c = '-' then [] :: splitOnDash rest
    else
      match splitOnDash rest with
      | [] => [[c]]
      | comp :: comps => (c :: comp) :: comps

/-- `generateMessageId` client-side:
`${Date.now()}-${Math.floor(Math.random()*1000000)}-${this.userId}`. -/
def generateMessageId (now rand uid : Nat) : List Char :=
  natChars now ++ ('-' :: (natChars rand ++ ('-' :: natChars uid)))

/-- The server's sender extraction for acknowledgement routing:
`data.messageId.split('-').pop()`, the truthiness guard on the popped
component, then `parseInt`. -/
def extractOriginalSenderId (mid : List Char) : Option Nat :=
  match (splitOnDash mid).getLast? with
  | some comp => if comp = [] then none else some (charsToNat comp)
  | none => none

/-! ## Reconnect backoff (client) -/

/-- Is this effect a scheduled reconnect? -/
def isScheduleReconnect : ClientEff → Bool
  | ClientEff.scheduleReconnect _ => true
  | _ => false

/-- Is this effect a transport send? -/
def isWsSend : ClientEff → Bool
  | ClientEff.wsSend _ => true
  | _ => false

/-- `n` consecutive invocations of `attemptReconnect` (the close-handler
path repeating with no intervening successful open), returning the final
state and the number of reconnects actually scheduled. -/
def reconnectRounds : Nat → ClientState → ClientState × Nat
  | 0, st => (st, 0)
  | n + 1, st =>
    let r := attemptReconnect st
    let r' := reconnectRounds n r.1
    (r'.1, r.2.countP isScheduleReconnect + r'.2)

/-- A sample quiescent client state used by the witnesses. -/
def idleState : ClientState :=
  { socketOpen := false, reconnectAttempts := 0, offlineQueue := [],
    pendingMessages := [], userId := some 1, isConnecting := false,
    connectionStatus := "disconnected" }

/-- C8: a non-normal close increments the reconnect counter before
scheduling, and the scheduled wait is
`min(5000 * 1.5^(attempt-1), 60000)` ms — 5000, 7500, 11250, 16875 and
25312.5 ms for attempts 1..5 — never exceeding the 60000 ms cap. -/
theorem reconnect_backoff_delays (st : ClientState) (code : Nat)
    (hcode : code ≠ 1000) (hlt : st.reconnectAttempts < 5) :
    (onCloseClient st code).1.reconnectAttempts = st.reconnectAttempts + 1 ∧
    ClientEff.scheduleReconnect (reconnectDelay (st.reconnectAttempts + 1))
      ∈ (onCloseClient st code).2 ∧
    reconnectDelay 1 = 5000 ∧ reconnectDelay 2 = 7500 ∧
    reconnectDelay 3 = 11250 ∧ reconnectDelay 4 = 16875 ∧
    reconnectDelay 5 = 50625 / 2 ∧
    ∀ n : Nat, reconnectDelay n ≤ 60000 := by
  have h5 : ¬ st.reconnectAttempts ≥ 5 := Nat.not_le.mpr hlt
  refine ⟨?_, ?_, ?_, ?_, ?_, ?_, ?_, fun n => min_le_right _ _⟩
  · simp [onCloseClient, attemptReconnect, hcode, h5]
  · simp [onCloseClient, attemptReconnect, hcode, h5]
  · rw [reconnectDelay, min_eq_left (by norm_num)]; norm_num
  · rw [reconnectDelay, min_eq_left (by norm_num)]; norm_num
  · rw [reconnectDelay, min_eq_left (by norm_num)]; norm_num
  · rw [reconnectDelay, min_eq_left (by norm_num)]; norm_num
  · rw [reconnectDelay, min_eq_left (by norm_num)]; norm_num

/-- Witness for C8: first abnormal close from a fresh state schedules
attempt 1 after 5000 ms. -/
theorem reconnect_backoff_delays_witness :
    (onCloseClient idleState 1006).1.reconnectAttempts = 1 ∧
    ClientEff.scheduleReconnect (reconnectDelay 1) ∈ (onCloseClient idleState 1006).2 ∧
    reconnectDelay 1 = 5000 :=
  ⟨(reconnect_backoff_delays idleState 1006 (by decide) (by decide)).1,
   (reconnect_backoff_delays idleState 1006 (by decide) (by decide)).2.1,
   (reconnect_backoff_delays idleState 1006 (by decide) (by decide)).2.2.1⟩

/-- After `n` reconnect rounds starting at attempt count `a`, exactly
`min n (5 - a)` reconnects were scheduled. -/
theorem reconnectRounds_count (n : Nat) :
    ∀ st : ClientState,
      (reconnectRounds n st).2 = min n (5 - st.reconnectAttempts) := by
  induction n with
  | zero => intro st; simp [reconnectRounds]
  | succ n ih =>
    intro st
    by_cases h5 : st.reconnectAttempts ≥ 5
    · have : (5 : Nat) - st.reconnectAttempts = 0 := by omega
      simp [reconnectRounds, attemptReconnect, h5, ih, isScheduleReconnect, this]
    · have hx := ih { st with reconnectAttempts := st.reconnectAttempts + 1 }
      simp [reconnectRounds, attemptReconnect, h5, isScheduleReconnect] at hx ⊢
      rw [hx]
      omega

/-- C10: the reconnect counter is reset only by a successful transport
open; once it reaches `maxReconnectAttempts = 5`, `attemptReconnect` emits
only the reconnect-failed notification, changes nothing and schedules no
connect — so from a fresh state at most 5 consecutive reconnects are ever
scheduled, however many times the close path fires. -/
theorem reconnect_gives_up_after_five (st : ClientState) (now : Int)
    (sendOk : Bool) (sendOkF : Nat → Bool) (mid : String) (p : Payload)
    (code : Nat) (n : Nat) :
    (st.reconnectAttempts ≥ 5 →
      attemptReconnect st = (st, [ClientEff.dispatch "websocket-reconnect-failed" none])) ∧
    (onOpenClient st).1.reconnectAttempts = 0 ∧
    (onCloseClient st code).1.reconnectAttempts ≥ st.reconnectAttempts ∧
    (sendOrQueueMessage st now sendOk p).1.reconnectAttempts = st.reconnectAttempts ∧
    (checkMessageDelivery st now sendOk mid).1.reconnectAttempts = st.reconnectAttempts ∧
    (processOfflineQueue st now sendOkF).1.reconnectAttempts = st.reconnectAttempts ∧
    (reconnectRounds n { st with reconnectAttempts := 0 }).2 = min n 5 := by
  refine ⟨?_, ?_, ?_, ?_, ?_, ?_, ?_⟩
  · intro h
    simp [attemptReconnect, h]
  · simp [onOpenClient]
  · by_cases h5 : st.reconnectAttempts ≥ 5 <;>
      simp [onCloseClient, attemptReconnect, h5] <;>
      split <;> simp
  · have hq : ∀ (s : ClientState) (pp : Payload),
        (queueMessage s now pp).1.reconnectAttempts = s.reconnectAttempts := by
      intro s pp
      unfold queueMessage
      split <;> rfl
    unfold sendOrQueueMessage
    split
    · split <;> split <;> first | rfl | simp [hq]
    · simp [hq]
  · have hq : ∀ (s : ClientState) (pp : Payload),
        (queueMessage s now pp).1.reconnectAttempts = s.reconnectAttempts := by
      intro s pp
      unfold queueMessage
      split <;> rfl
    unfold checkMessageDelivery
    cases hget : mapGet st.pendingMessages mid with
    | none => rfl
    | some pm =>
      simp only []
      split
      · rfl
      · split
        · split <;> rfl
        · simp [hq]
  · unfold processOfflineQueue
    split <;> simp
  · rw [reconnectRounds_count]
    simp

/-- Witness for C10: at the cap, `attemptReconnect` only reports failure;
six close-driven rounds from a fresh state schedule exactly five connects. -/
theorem reconnect_gives_up_after_five_witness :
    attemptReconnect { idleState with reconnectAttempts := 5 }
      = ({ idleState with reconnectAttempts := 5 },
         [ClientEff.dispatch "websocket-reconnect-failed" none]) ∧
    (reconnectRounds 6 { { idleState with reconnectAttempts := 5 } with
        reconnectAttempts := 0 }).2 = min 6 5 :=
  ⟨(reconnect_gives_up_after_five { idleState with reconnectAttempts := 5 }
      0 true (fun _ => true) "m" { type := "chat_message" } 1006 6).1 (by decide),
   (reconnect_gives_up_after_five { idleState with reconnectAttempts := 5 }
      0 true (fun _ => true) "m" { type := "chat_message" } 1006 6).2.2.2.2.2.2⟩

/-! ## Offline-queue persistence cap (C5) -/

/-- The `i`-th queued chat message of the C5 scenario: strictly increasing
enqueue timestamps `1000000 + i`, all far younger than 24 hours. -/
def c5Entry (i : Nat) : QueuedMessage :=
  { payload := { type := "chat_message", messageId := some "m", timestamp := 0 },
    attempts := 0, timestamp := 1000000 + i }

/-- A queue of 101 eligible chat messages, oldest first (as `queueMessage`
pushes to the back). -/
def c5Queue : List QueuedMessage := (List.range 101).map c5Entry

/-- `Date.now()` for the C5 scenario. -/
def c5Now : Int := 1000200

/-- C5 (code bug): with 101 queued chat messages all younger than 24 hours,
`saveOfflineQueue`'s `slice(0, 100)` persists the FIRST (oldest) 100
entries and drops the newest one — the code's own comment ("Limit to last
100 messages") and the claim ("capped to the most recent 100") both demand
the opposite. -/
theorem save_cap_keeps_oldest_drops_newest :
    (∀ e ∈ c5Queue, e.payload.type = "chat_message" ∧ c5Now - 86400000 < e.timestamp) ∧
    savedQueueData c5Now c5Queue = (List.range 100).map c5Entry ∧
    (savedQueueData c5Now c5Queue).length = 100 ∧
    c5Entry 100 ∈ c5Queue ∧
    c5Entry 100 ∉ savedQueueData c5Now c5Queue := by
  have hall : ∀ e ∈ c5Queue, e.payload.type = "chat_message" ∧ c5Now - 86400000 < e.timestamp := by
    intro e he
    simp only [c5Queue, List.mem_map] at he
    obtain ⟨i, _, rfl⟩ := he
    refine ⟨rfl, ?_⟩
    simp only [c5Entry, c5Now]
    omega
  have hsave : savedQueueData c5Now c5Queue = (List.range 100).map c5Entry := by
    unfold savedQueueData
    rw [List.filter_eq_self.mpr, List.filter_eq_self.mpr]
    · simp only [c5Queue]
      rw [← List.map_take, List.take_range]
      norm_num
    · intro e he
      simpa using (hall e he).2
    · intro e he
      simpa using (hall e he).1
  have hnotin : c5Entry 100 ∉ (List.range 100).map c5Entry := by
    intro hmem
    simp only [List.mem_map, List.mem_range] at hmem
    obtain ⟨i, hi, heq⟩ := hmem
    have : (1000000 + i : Int) = 1000000 + 100 := congrArg QueuedMessage.timestamp heq
    omega
  refine ⟨hall, hsave, ?_, ?_, ?_⟩
  · rw [hsave]
    simp
  · simp only [c5Queue, List.mem_map]
    exact ⟨100, by simp, rfl⟩
  · rw [hsave]
    exact hnotin

/-! ## Delivery tracker (C6) -/

/-- Replace the `pendingMessages` field (the only field the delivery
tracker mutates). -/
def setPending (st : ClientState) (pend : List (String × QueuedMessage)) : ClientState :=
  { st with pendingMessages := pend }

/-- Projection of `setPending`. -/
theorem setPending_pend (st : ClientState) (pend : List (String × QueuedMessage)) :
    (setPending st pend).pendingMessages = pend := rfl

/-- `find?` over the in-place-replacement branch of `mapSet`. -/
theorem find_map_replace (ms : List (String × QueuedMessage)) (k : String) (v : QueuedMessage)
    (hcond : (ms.find? (fun e => e.1 == k)).isSome = true) :
    (ms.map (fun e => if e.1 == k then (k, v) else e)).find? (fun e => e.1 == k)
      = some (k, v) := by
  induction ms with
  | nil => simp at hcond
  | cons a ms ih =>
    by_cases ha : ((a.1 == k) = true)
    · rw [List.map_cons, if_pos ha, List.find?_cons_of_pos]
      simp
    · have ha' : (a.1 == k) = false := by simpa using ha
      rw [List.map_cons, if_neg ha]
      simp only [List.find?_cons, ha']
      simp only [List.find?_cons, ha'] at hcond
      exact ih hcond

/-- `find?` over the append branch of `mapSet`. -/
theorem find_append_new (ms : List (String × QueuedMessage)) (k : String) (v : QueuedMessage)
    (hnone : ms.find? (fun e => e.1 == k) = none) :
    (ms ++ [(k, v)]).find? (fun e => e.1 == k) = some (k, v) := by
  rw [List.find?_append, hnone, Option.none_or, List.find?_cons_of_pos]
  simp

/-- `Map.get` after `Map.set` of the same key yields the new value. -/
theorem find_mapSet (ms : List (String × QueuedMessage)) (k : String) (v : QueuedMessage) :
    (mapSet ms k v).find? (fun e => e.1 == k) = some (k, v) := by
  unfold mapSet
  split
  · exact find_map_replace ms k v (by assumption)
  · rename_i hcond
    apply find_append_new
    cases hf : ms.find? (fun e => e.1 == k) with
    | none => rfl
    | some x => rw [hf] at hcond; simp at hcond

/-- `mapGet` after `mapSet` of the same key. -/
theorem mapGet_mapSet_self (ms : List (String × QueuedMessage)) (k : String)
    (v : QueuedMessage) : mapGet (mapSet ms k v) k = some v := by
  unfold mapGet
  rw [find_mapSet]
  rfl

/-- `mapGet` after `mapDelete` of the same key. -/
theorem mapGet_mapDelete_self (ms : List (String × QueuedMessage)) (k : String) :
    mapGet (mapDelete ms k) k = none := by
  unfold mapGet mapDelete
  induction ms with
  | nil => rfl
  | cons a ms ih =>
    by_cases ha : a.1 = k
    · have h1 : (a.1 != k) = false := by simp [ha]
      simp only [List.filter_cons, h1, Bool.false_eq_true, if_false]
      exact ih
    · have h1 : (a.1 != k) = true := by simp [ha]
      have h2 : (a.1 == k) = false := by simp [ha]
      simp only [List.filter_cons, h1, if_true, List.find?_cons, h2]
      exact ih

/-- A delivery check on a live entry below the attempt cap: increment,
resend, recheck 5 seconds later. -/
theorem check_step_resend (st : ClientState) (now : Int) (mid : String) (pm : QueuedMessage)
    (hget : mapGet st.pendingMessages mid = some pm) (hlt : pm.attempts < 3)
    (hopen : st.socketOpen = true) :
    checkMessageDelivery st now true mid
      = (setPending st (mapSet st.pendingMessages mid { pm with attempts := pm.attempts + 1 }),
         [ClientEff.wsSend pm.payload, ClientEff.scheduleCheck mid 5000]) := by
  have h3 : ¬ pm.attempts ≥ 3 := Nat.not_le.mpr hlt
  simp [checkMessageDelivery, setPending, hget, h3, hopen]

/-- A delivery check on an entry at the attempt cap: remove and fail. -/
theorem check_step_fail (st : ClientState) (now : Int) (sendOk : Bool) (mid : String)
    (pm : QueuedMessage)
    (hget : mapGet st.pendingMessages mid = some pm) (hge : pm.attempts ≥ 3) :
    checkMessageDelivery st now sendOk mid
      = (setPending st (mapDelete st.pendingMessages mid),
         [ClientEff.dispatch "websocket-message-failed" (some mid)]) := by
  simp [checkMessageDelivery, setPending, hget, hge]

/-- `n` consecutive delivery checks (5 seconds apart in the source), with
each resend succeeding, accumulating the emitted effects. -/
def checksIter (now : Int) (mid : String) : Nat → ClientState → ClientState × List ClientEff
  | 0, st => (st, [])
  | n + 1, st =>
    let r := checkMessageDelivery st now true mid
    let r' := checksIter now mid n r.1
    (r'.1, r.2 ++ r'.2)

/-- C6: every chat message handed to an open connection is registered as a
Pending Delivery entry with a check 5 s later; a check on an absent entry
is a no-op; at `attempts >= 3` the entry is removed and the
permanent-failure notification carries the messageId; below the cap the
attempt counter is incremented and, on an open transport, the payload is
resent with another check in 5 s — so a never-acknowledged message gets
exactly 3 sends (1 initial + 2 resends) before failure is reported on the
third check. -/
theorem delivery_retry_policy (st : ClientState) (now : Int) (sendOk : Bool)
    (mid : String) (p : Payload) (pm : QueuedMessage) :
    (st.socketOpen = true → isTrackedChat p = true → p.messageId = some mid →
      mapGet (sendOrQueueMessage st now true p).1.pendingMessages mid
          = some (mkPendingEntry p now) ∧
      ClientEff.scheduleCheck mid 5000 ∈ (sendOrQueueMessage st now true p).2.2) ∧
    (mapGet st.pendingMessages mid = none →
      checkMessageDelivery st now sendOk mid = (st, [])) ∧
    (mapGet st.pendingMessages mid = some pm → pm.attempts ≥ 3 →
      checkMessageDelivery st now sendOk mid
        = (setPending st (mapDelete st.pendingMessages mid),
           [ClientEff.dispatch "websocket-message-failed" (some mid)]) ∧
      mapGet (checkMessageDelivery st now sendOk mid).1.pendingMessages mid = none) ∧
    (mapGet st.pendingMessages mid = some pm → pm.attempts < 3 → st.socketOpen = true →
      checkMessageDelivery st now true mid
        = (setPending st (mapSet st.pendingMessages mid { pm with attempts := pm.attempts + 1 }),
           [ClientEff.wsSend pm.payload, ClientEff.scheduleCheck mid 5000])) ∧
    (st.socketOpen = true →
      mapGet st.pendingMessages mid = some (mkPendingEntry p now) →
      (checksIter now mid 3 st).2.countP isWsSend = 2 ∧
      ClientEff.dispatch "websocket-message-failed" (some mid) ∈ (checksIter now mid 3 st).2 ∧
      mapGet (checksIter now mid 3 st).1.pendingMessages mid = none) := by
  refine ⟨?_, ?_, ?_, ?_, ?_⟩
  · intro hopen htc hpmid
    constructor
    · simp [sendOrQueueMessage, hopen, htc, hpmid, mapGet_mapSet_self]
    · simp [sendOrQueueMessage, hopen, htc, hpmid]
  · intro h
    simp [checkMessageDelivery, h]
  · intro hget hge
    refine ⟨check_step_fail st now sendOk mid pm hget hge, ?_⟩
    rw [check_step_fail st now sendOk mid pm hget hge]
    exact mapGet_mapDelete_self _ _
  · exact fun hget hlt hopen => check_step_resend st now mid pm hget hlt hopen
  · intro hopen hget0
    have e1 : checkMessageDelivery st now true mid
        = (setPending st (mapSet st.pendingMessages mid ⟨p, 2, now⟩),
           [ClientEff.wsSend p, ClientEff.scheduleCheck mid 5000]) :=
      check_step_resend st now mid (mkPendingEntry p now) hget0 (by simp [mkPendingEntry]) hopen
    have e2 : checkMessageDelivery (setPending st (mapSet st.pendingMessages mid ⟨p, 2, now⟩))
          now true mid
        = (setPending st (mapSet (mapSet st.pendingMessages mid ⟨p, 2, now⟩) mid ⟨p, 3, now⟩),
           [ClientEff.wsSend p, ClientEff.scheduleCheck mid 5000]) :=
      check_step_resend (setPending st (mapSet st.pendingMessages mid ⟨p, 2, now⟩))
        now mid ⟨p, 2, now⟩ (mapGet_mapSet_self _ _ _) (by simp) hopen
    have e3 : checkMessageDelivery
          (setPending st (mapSet (mapSet st.pendingMessages mid ⟨p, 2, now⟩) mid ⟨p, 3, now⟩))
          now true mid
        = (setPending st
            (mapDelete (mapSet (mapSet st.pendingMessages mid ⟨p, 2, now⟩) mid ⟨p, 3, now⟩) mid),
           [ClientEff.dispatch "websocket-message-failed" (some mid)]) :=
      check_step_fail
        (setPending st (mapSet (mapSet st.pendingMessages mid ⟨p, 2, now⟩) mid ⟨p, 3, now⟩))
        now true mid ⟨p, 3, now⟩ (mapGet_mapSet_self _ _ _) (by simp)
    refine ⟨?_, ?_, ?_⟩ <;>
      simp [checksIter, e1, e2, e3, isWsSend, List.countP_cons, mapGet_mapDelete_self,
        setPending_pend]

/-- The chat payload of the C6 witness. -/
def trackedPayload : Payload :=
  { type := "chat_message", messageId := some "m1", timestamp := 7 }

/-- A connected client state with one Pending Delivery entry for the C6
witness. -/
def trackedState : ClientState :=
  { idleState with
    socketOpen := true,
    pendingMessages := [("m1", mkPendingEntry trackedPayload 7)] }

/-- Witness for C6: for a concrete pending chat message, the three checks
produce exactly 2 resends, the permanent-failure event carrying the id, and
a removed entry. -/
theorem delivery_retry_policy_witness :
    (checksIter 7 "m1" 3 trackedState).2.countP isWsSend = 2 ∧
    ClientEff.dispatch "websocket-message-failed" (some "m1")
      ∈ (checksIter 7 "m1" 3 trackedState).2 ∧
    mapGet (checksIter 7 "m1" 3 trackedState).1.pendingMessages "m1" = none :=
  (delivery_retry_policy trackedState 7 true "m1" trackedPayload
    (mkPendingEntry trackedPayload 7)).2.2.2.2 (by decide) (by decide)

/-! ## Offline-queue flush (C7) -/

/-- The transport sends among a list of effects, in order. -/
def sentPayloads (effs : List ClientEff) : List Payload :=
  effs.filterMap (fun e => match e with | ClientEff.wsSend p => some p | _ => none)

/-- The effects a successful flush of the given (already refreshed)
payloads produces: each send followed by its delivery-check timer when the
payload is a tracked chat message. -/
def flushEffs : List Payload → List ClientEff
  | [] => []
  | p :: ps => ClientEff.wsSend p ::
      ((if isTrackedChat p then
          [ClientEff.scheduleCheck (p.messageId.getD "") 5000]
        else []) ++ flushEffs ps)

/-- Register Pending Delivery entries for the given payloads, in send
order, exactly as a fresh send would (`mkPendingEntry`, attempts 1). -/
def registerSent (now : Int) (ps : List Payload)
    (pending : List (String × QueuedMessage)) : List (String × QueuedMessage) :=
  ps.foldl (fun acc p =>
    if isTrackedChat p then mapSet acc (p.messageId.getD "") (mkPendingEntry p now) else acc)
    pending

/-- Refresh the head entry of the remaining queue (the failed item was
already timestamp-refreshed before its send was attempted). -/
def refreshHead (now : Int) : List QueuedMessage → List QueuedMessage
  | [] => []
  | item :: rest => { item with payload := refreshPayload now item.payload } :: rest

/-- Full characterisation of the flush loop when the first `k` sends
succeed and the `(k+1)`-th throws. -/
theorem processQueueGo_spec (now : Int) (sendOk : Nat → Bool) :
    ∀ (q : List QueuedMessage) (k j : Nat) (pending : List (String × QueuedMessage)),
      (∀ i, i < k → sendOk (j + i) = true) → sendOk (j + k) = false →
      processQueueGo now sendOk j q pending
        = (refreshHead now (q.drop k),
           registerSent now ((q.take k).map (fun it => refreshPayload now it.payload)) pending,
           flushEffs ((q.take k).map (fun it => refreshPayload now it.payload))) := by
  intro q
  induction q with
  | nil =>
    intro k j pending _ _
    simp [processQueueGo, refreshHead, registerSent, flushEffs]
  | cons item rest ih =>
    intro k j pending hok hfail
    cases k with
    | zero =>
      have h0 : sendOk j = false := by simpa using hfail
      simp [processQueueGo, h0, refreshHead, registerSent, flushEffs]
    | succ k' =>
      have h1 : sendOk j = true := by simpa using hok 0 (Nat.succ_pos k')
      have hok' : ∀ i, i < k' → sendOk (j + 1 + i) = true := by
        intro i hi
        have := hok (i + 1) (Nat.succ_lt_succ hi)
        rwa [show j + (i + 1) = j + 1 + i by omega] at this
      have hfail' : sendOk (j + 1 + k') = false := by
        rwa [show j + (k' + 1) = j + 1 + k' by omega] at hfail
      have hrec := ih k' (j + 1) (if isTrackedChat (refreshPayload now item.payload) then
        mapSet pending ((refreshPayload now item.payload).messageId.getD "")
          (mkPendingEntry (refreshPayload now item.payload) now) else pending) hok' hfail'
      simp only [processQueueGo, h1, if_true, hrec, List.take_succ_cons, List.drop_succ_cons,
        List.map_cons, registerSent, flushEffs, List.foldl_cons]
      by_cases htc : isTrackedChat (refreshPayload now item.payload) = true <;>
        simp [htc, registerSent, flushEffs]

/-- The transport sends of a flush are exactly the flushed payloads. -/
theorem sentPayloads_flushEffs (ps : List Payload) : sentPayloads (flushEffs ps) = ps := by
  induction ps with
  | nil => rfl
  | cons p ps ih =>
    by_cases htc : isTrackedChat p = true <;>
      simp [flushEffs, sentPayloads, htc, List.filterMap_append] <;>
      simpa [sentPayloads] using ih

/-- A flush schedules a delivery check for every tracked chat payload it
sends. -/
theorem flushEffs_scheduleCheck (ps : List Payload) (p : Payload)
    (hp : p ∈ ps) (htc : isTrackedChat p = true) :
    ClientEff.scheduleCheck (p.messageId.getD "") 5000 ∈ flushEffs ps := by
  induction ps with
  | nil => simp at hp
  | cons q ps ih =>
    rcases List.mem_cons.mp hp with h | h
    · subst h
      simp [flushEffs, htc]
    · by_cases hq : isTrackedChat q = true <;> simp [flushEffs, hq, ih h]

/-- C7: `processOfflineQueue` pops entries in FIFO order, refreshing the
timestamp of every chat payload before it is resent; when the first `k`
sends succeed and the next throws, exactly the first `k` entries are sent
(in queue order), the failed entry is pushed back to the FRONT of the
remaining queue and flushing stops; every sent tracked chat message is
re-registered in Pending Delivery exactly as a fresh send
(`mkPendingEntry`, check in 5 s), the fresh-send registration being the
final conjunct. -/
theorem offline_flush_fifo (st : ClientState) (now : Int) (sendOk : Nat → Bool) (k : Nat)
    (p : Payload)
    (hopen : st.socketOpen = true)
    (hok : ∀ i, i < k → sendOk i = true) (hfail : sendOk k = false) :
    sentPayloads (processOfflineQueue st now sendOk).2
      = (st.offlineQueue.take k).map (fun it => refreshPayload now it.payload) ∧
    (processOfflineQueue st now sendOk).1.offlineQueue
      = refreshHead now (st.offlineQueue.drop k) ∧
    (processOfflineQueue st now sendOk).1.pendingMessages
      = registerSent now ((st.offlineQueue.take k).map (fun it => refreshPayload now it.payload))
          st.pendingMessages ∧
    (∀ q ∈ (st.offlineQueue.take k).map (fun it => refreshPayload now it.payload),
      isTrackedChat q = true →
        ClientEff.scheduleCheck (q.messageId.getD "") 5000 ∈ (processOfflineQueue st now sendOk).2) ∧
    (isTrackedChat p = true →
      (sendOrQueueMessage st now true p).1.pendingMessages
        = mapSet st.pendingMessages (p.messageId.getD "") (mkPendingEntry p now)) := by
  have hspec := processQueueGo_spec now sendOk st.offlineQueue k 0 st.pendingMessages
    (by simpa using hok) (by simpa using hfail)
  refine ⟨?_, ?_, ?_, ?_, ?_⟩
  · simp [processOfflineQueue, hopen, hspec, sentPayloads, List.filterMap_append]
    simpa [sentPayloads] using
      sentPayloads_flushEffs ((st.offlineQueue.take k).map (fun it => refreshPayload now it.payload))
  · simp [processOfflineQueue, hopen, hspec]
  · simp [processOfflineQueue, hopen, hspec]
  · intro q hq htc
    simp [processOfflineQueue, hopen, hspec]
    rw [← List.map_take]
    exact flushEffs_scheduleCheck _ q hq htc
  · intro htc
    simp [sendOrQueueMessage, hopen, htc]

/-- The two-entry queue of the C7 witness. -/
def flushQueueA : QueuedMessage :=
  { payload := { type := "chat_message", messageId := some "a", timestamp := 1 },
    attempts := 0, timestamp := 1 }

/-- Second entry of the C7 witness queue. -/
def flushQueueB : QueuedMessage :=
  { payload := { type := "chat_message", messageId := some "b", timestamp := 2 },
    attempts := 0, timestamp := 2 }

/-- A connected client state holding the two queued messages. -/
def flushState : ClientState :=
  { idleState with
    socketOpen := true,
    offlineQueue := [flushQueueA, flushQueueB] }

/-- Witness for C7: the first send succeeds, the second throws — entry `a`
is sent refreshed, entry `b` stays at the front of the queue (refreshed),
and `a` is re-registered as a fresh Pending Delivery entry. -/
theorem offline_flush_fifo_witness :
    sentPayloads (processOfflineQueue flushState 9 (fun i => i == 0)).2
      = [{ type := "chat_message", messageId := some "a", timestamp := 9 }] ∧
    (processOfflineQueue flushState 9 (fun i => i == 0)).1.offlineQueue
      = [{ flushQueueB with
            payload := { type := "chat_message", messageId := some "b", timestamp := 9 } }] ∧
    (processOfflineQueue flushState 9 (fun i => i == 0)).1.pendingMessages
      = [("a", { payload := { type := "chat_message", messageId := some "a", timestamp := 9 },
                 attempts := 1, timestamp := 9 })] := by
  have h := offline_flush_fifo flushState 9 (fun i => i == 0) 1
    { type := "chat_message" } rfl (by decide) (by decide)
  refine ⟨?_, ?_, ?_⟩
  · have := h.1
    simpa [flushState, idleState, flushQueueA, refreshPayload] using this
  · have := h.2.1
    simpa [flushState, idleState, flushQueueA, flushQueueB, refreshHead, refreshPayload] using this
  · have := h.2.2.1
    simpa [flushState, idleState, flushQueueA, registerSent, refreshPayload, isTrackedChat,
      truthyS, mapSet, mkPendingEntry] using this

/-! ## Message-id round trip (C9) -/

/-- A decimal digit character decodes back to its digit (JS `parseInt`). -/
theorem digitChar_toNat (d : Nat) (h : d < 10) : (Nat.digitChar d).toNat - 48 = d := by
  interval_cases d <;> rfl

/-- Decimal digit characters are never the dash separator. -/
theorem digitChar_ne_dash (d : Nat) (h : d < 10) : Nat.digitChar d ≠ '-' := by
  interval_cases d <;> decide

/-- A JS-rendered non-negative integer contains no dash. -/
theorem noDash_natChars (n : Nat) : '-' ∉ natChars n := by
  unfold natChars
  split
  · decide
  · intro hmem
    simp only [List.mem_map, List.mem_reverse] at hmem
    obtain ⟨d, hd, hdc⟩ := hmem
    exact digitChar_ne_dash d (Nat.digits_lt_base (by norm_num) hd) hdc

/-- A JS-rendered integer is never the empty string. -/
theorem natChars_ne_nil (n : Nat) : natChars n ≠ [] := by
  unfold natChars
  split
  · simp
  · rename_i h
    simp [Nat.digits_eq_nil_iff_eq_zero, h]

/-- `split('-')` of a dash-free string is that single component. -/
theorem splitOnDash_noDash (s : List Char) (h : '-' ∉ s) : splitOnDash s = [s] := by
  induction s with
  | nil => rfl
  | cons c rest ih =>
    have hc : ¬ c = '-' := fun he => h (by simp [he])
    have hr : '-' ∉ rest := fun hm => h (List.mem_cons_of_mem _ hm)
    unfold splitOnDash
    rw [if_neg hc, ih hr]

/-- The one-step unfolding of `split('-')` on a cons cell. -/
theorem splitOnDash_cons (c : Char) (s : List Char) :
    splitOnDash (c :: s)
      = if c = '-' then [] :: splitOnDash s
        else match splitOnDash s with
          | [] => [[c]]
          | comp :: comps => (c :: comp) :: comps := by
  conv_lhs => unfold splitOnDash

/-- `split('-')` peels one dash-free component before each dash. -/
theorem splitOnDash_append (a rest : List Char) (h : '-' ∉ a) :
    splitOnDash (a ++ '-' :: rest) = a :: splitOnDash rest := by
  induction a with
  | nil => simp [splitOnDash]
  | cons c a' ih =>
    have hc : ¬ c = '-' := fun he => h (by simp [he])
    have ha' : '-' ∉ a' := fun hm => h (List.mem_cons_of_mem _ hm)
    rw [List.cons_append, splitOnDash_cons, if_neg hc, ih ha']

/-- `parseInt` inverts the JS rendering of a non-negative integer. -/
theorem charsToNat_natChars (n : Nat) : charsToNat (natChars n) = n := by
  unfold natChars
  split
  · rename_i h
    subst h
    rfl
  · unfold charsToNat
    rw [List.map_map, List.map_reverse, List.reverse_reverse]
    have hmap : (Nat.digits 10 n).map ((fun c => c.toNat - 48) ∘ Nat.digitChar)
        = Nat.digits 10 n := by
      have h1 : (Nat.digits 10 n).map ((fun c => c.toNat - 48) ∘ Nat.digitChar)
          = (Nat.digits 10 n).map id :=
        List.map_congr_left
          (fun d hd => digitChar_toNat d (Nat.digits_lt_base (by norm_num) hd))
      rw [h1, List.map_id]
    rw [hmap, Nat.ofDigits_digits]

/-- C9: splitting a client-generated messageId
`{epochMillis}-{random}-{senderId}` on dashes and parsing the last
component — the server's acknowledgement-routing extraction — recovers
exactly the sender id. -/
theorem message_id_roundtrip (now rand uid : Nat) :
    extractOriginalSenderId (generateMessageId now rand uid) = some uid := by
  have hne : natChars uid ≠ [] := natChars_ne_nil uid
  unfold generateMessageId extractOriginalSenderId
  rw [splitOnDash_append _ _ (noDash_natChars now),
    splitOnDash_append _ _ (noDash_natChars rand),
    splitOnDash_noDash _ (noDash_natChars uid)]
  simp [hne, charsToNat_natChars]
